import Mathlib

/-!
Verification development for the attribution-pro quantitative core.

The JavaScript source is shallowly embedded in Lean:
* JS numbers are modelled as exact rationals (`ℚ`); the special values
  `NaN`, `Infinity` and `-Infinity` are modelled by the extra constructors
  of `JSNum` where the source inspects them via `Number.isFinite`.
* JS `Date` values are modelled by their `getTime()` millisecond value
  (`ℤ`); a value that is not a `Date` object (`instanceof Date` fails)
  is modelled as `none` in an `Option ℤ`.
* A JS function that can `throw` is modelled as returning
  `Except String α`, carrying the source's error message.
-/

namespace AttributionPro

/-- A JavaScript number: either a finite value (modelled exactly as a
rational) or one of the non-finite IEEE values `NaN`, `Infinity`,
`-Infinity`. -/
inductive JSNum where
  | nan : JSNum
  | posInf : JSNum
  | negInf : JSNum
  | fin : ℚ → JSNum
deriving DecidableEq, Inhabited

/-- JS `Number.isFinite`. -/
def JSNum.isFinite : JSNum → Bool
  | .fin _ => true
  | _ => false

/-- The rational value of a finite `JSNum`; only ever applied to values
that have passed a `Number.isFinite` check (non-finite values map to a
junk value `0`). -/
def JSNum.toRat : JSNum → ℚ
  | .fin q => q
  | _ => 0

/-- IEEE/JS addition on possibly non-finite numbers (overflow of finite
sums is not modelled: finite values are exact rationals). -/
def jsAdd : JSNum → JSNum → JSNum
  | .nan, _ => .nan
  | _, .nan => .nan
  | .posInf, .negInf => .nan
  | .negInf, .posInf => .nan
  | .posInf, _ => .posInf
  | _, .posInf => .posInf
  | .negInf, _ => .negInf
  | _, .negInf => .negInf
  | .fin a, .fin b => .fin (a + b)

/-- JS `arr.reduce((s, x) => s + x, 0)` over possibly non-finite numbers. -/
def jsSum (l : List JSNum) : JSNum := l.foldl jsAdd (.fin 0)

/-- JS `Math.abs(x) < c` for a finite positive rational bound `c`:
`false` whenever `x` is `NaN` or infinite (`Math.abs` keeps them
non-finite and the comparison with a finite bound is then `false`). -/
def jsAbsLt (x : JSNum) (c : ℚ) : Bool :=
  match x with
  | .fin q => decide (|q| < c)
  | _ => false

/-- The source constant `EPS = 1e-12` (exact). -/
def EPS : ℚ := 1 / 1000000000000

/-- A cashflow record as consumed by `modifiedDietz` /
`computeCashflowWeights`: `date` is `none` when the field is not a
`Date` object, otherwise `some` of its millisecond time. -/
structure Cashflow where
  date : Option ℤ
  amount : JSNum
deriving DecidableEq, Inhabited

/-- The millisecond time of a cashflow's date; only ever applied to
flows that passed the `instanceof Date` filter. -/
def flowTime (cf : Cashflow) : ℤ := cf.date.getD 0

/-- The cashflow filter used inside `modifiedDietz`:
`cf.date instanceof Date && cf.date.getTime() >= startDate.getTime() &&
cf.date.getTime() <= endDate.getTime() && Number.isFinite(cf.amount)`. -/
def dietzFlowOk (t0 t1 : ℤ) (cf : Cashflow) : Bool :=
  match cf.date with
  | some t => decide (t0 ≤ t) && decide (t ≤ t1) && cf.amount.isFinite
  | none => false

/-- The `validFlows` list in `modifiedDietz`. -/
def dietzValidFlows (t0 t1 : ℤ) (flows : List Cashflow) : List Cashflow :=
  flows.filter (dietzFlowOk t0 t1)

/-- The `sumCF` value: the unweighted sum of the retained flows. -/
def dietzSumCF (t0 t1 : ℤ) (flows : List Cashflow) : ℚ :=
  ((dietzValidFlows t0 t1 flows).map (fun cf => cf.amount.toRat)).sum

/-- The clamped Modified Dietz time weight of one flow:
`Math.max(0, Math.min(1, (endDate - date) / T))`. -/
def dietzWeight (t0 t1 : ℤ) (cf : Cashflow) : ℚ :=
  max 0 (min 1 (((t1 - flowTime cf : ℤ) : ℚ) / ((t1 - t0 : ℤ) : ℚ)))

/-- The `weightedCF` value: the time-weighted sum of the retained flows. -/
def dietzWeightedCF (t0 t1 : ℤ) (flows : List Cashflow) : ℚ :=
  ((dietzValidFlows t0 t1 flows).map
    (fun cf => dietzWeight t0 t1 cf * cf.amount.toRat)).sum

/-- Input record of `modifiedDietz`. -/
structure DietzParams where
  beginningValue : JSNum
  endingValue : JSNum
  cashflows : List Cashflow
  startDate : Option ℤ
  endDate : Option ℤ
deriving DecidableEq, Inhabited

/-- Function `modifiedDietz` from the source: validation, cashflow filtering,
weighted sums, denominator stability guard, and the Dietz quotient. -/
def modifiedDietz (p : DietzParams) : Except String ℚ :=
  if !(p.beginningValue.isFinite && p.endingValue.isFinite) then
    .error "Beginning value and ending value must be finite numbers."
  else
    match p.startDate, p.endDate with
    | some t0, some t1 =>
      if t1 - t0 ≤ 0 then .error "End date must be after start date."
      else
        let denominator := p.beginningValue.toRat + dietzWeightedCF t0 t1 p.cashflows
        if |denominator| < EPS then
          .error "Unstable denominator — beginning value plus weighted cashflows is near zero."
        else
          .ok ((p.endingValue.toRat - p.beginningValue.toRat - dietzSumCF t0 t1 p.cashflows)
            / denominator)
    | _, _ => .error "Start date and end date must be valid Date objects."

/-- Output row of `computeCashflowWeights`. -/
structure WeightedFlow where
  date : Option ℤ
  amount : JSNum
  weight : ℚ
  weightedAmount : ℚ
deriving DecidableEq, Inhabited

/-- The cashflow filter used inside `computeCashflowWeights`
(syntactically repeated in the source, not shared with
`modifiedDietz`). -/
def cwFlowOk (t0 t1 : ℤ) (cf : Cashflow) : Bool :=
  match cf.date with
  | some t => decide (t0 ≤ t) && decide (t ≤ t1) && cf.amount.isFinite
  | none => false

/-- The clamped weight computed inside `computeCashflowWeights`. -/
def cwWeight (t0 t1 : ℤ) (cf : Cashflow) : ℚ :=
  max 0 (min 1 (((t1 - flowTime cf : ℤ) : ℚ) / ((t1 - t0 : ℤ) : ℚ)))

/-- Function `computeCashflowWeights` from the source. -/
def computeCashflowWeights (cashflows : List Cashflow) (t0 t1 : ℤ) : List WeightedFlow :=
  if t1 - t0 ≤ 0 then []
  else
    (cashflows.filter (cwFlowOk t0 t1)).map (fun cf =>
      { date := cf.date, amount := cf.amount,
        weight := cwWeight t0 t1 cf,
        weightedAmount := cwWeight t0 t1 cf * cf.amount.toRat })

example :
    modifiedDietz ⟨.fin 1000, .fin 1100, [], some 0, some 86400000⟩ = .ok (1/10) := by
  norm_num [modifiedDietz, JSNum.isFinite, JSNum.toRat, dietzWeightedCF, dietzSumCF,
    dietzValidFlows, EPS]

/-- JS `Math.round`: round half toward positive infinity. -/
def jsRound (q : ℚ) : ℤ := ⌊q + 1/2⌋

/-- The source constant `msPerDay = 86_400_000`. -/
def msPerDay : ℤ := 86400000

/-- The quantity `days = Math.round((end.getTime() - start.getTime()) / msPerDay)` in
`annualize`. -/
def annualizeDays (t0 t1 : ℤ) : ℤ := jsRound (((t1 - t0 : ℤ) : ℚ) / (msPerDay : ℚ))

/-- The value computed by `annualize`. ECMA-262 pins down
`Math.pow(base, expo)` (for a finite base and a finite positive
exponent, the only case arising here) exactly when the base is `0`
(the result is `+0`) or the base is negative with a non-integer
exponent (the result is `NaN`); every other power is only an
implementation-approximated double, which in particular overflows to
`±Infinity` when the mathematical power exceeds the double range, so
the embedding keeps that case symbolic:
* `nan` — the result is `NaN`;
* `exact q` — the result is pinned exactly to the rational `q`;
* `approx b e` — the result is the implementation-approximated double
  of `b ^ e`, minus `1`: finite for moderate magnitudes, `-Infinity`
  or `+Infinity` when `b ^ e` overflows. -/
inductive AnnResult where
  | nan : AnnResult
  | exact : ℚ → AnnResult
  | approx : ℚ → ℚ → AnnResult
deriving DecidableEq, Inhabited

/-- Function `annualize(r, start, end)` from the source, with IEEE `Math.pow`
semantics made explicit: for a negative base a fractional exponent
gives `NaN`, while an integer exponent gives the
implementation-approximated signed power (overflowing to `-Infinity`
for large magnitudes); `Math.pow(0, e) = +0` exactly for `e > 0`; a
positive base likewise gives an implementation-approximated power.
The JS guard `Number.isFinite(r)` always passes here because the
embedded `r` is an exact rational. -/
def annualize (r : ℚ) (t0 t1 : ℤ) : AnnResult :=
  let days := annualizeDays t0 t1
  if days ≤ 0 then .nan
  else
    let base := 1 + r
    let expo : ℚ := 365 / (days : ℚ)
    if base < 0 then
      if expo.den = 1 then .approx base expo else .nan
    else if base = 0 then .exact (0 - 1)
    else .approx base expo

/-- An asset row as consumed by `computePortfolioReturns`.  Per the
data model, market values are finite money amounts, modelled as exact
rationals. -/
structure Asset where
  name : String
  beginningValue : ℚ
  endingValue : ℚ
deriving DecidableEq, Inhabited

/-- A cashflow record as consumed by `computePortfolioReturns`: like
`Cashflow` plus the `assetClass` grouping key. -/
structure PortfolioCashflow where
  date : Option ℤ
  amount : JSNum
  assetClass : String
deriving DecidableEq, Inhabited

/-- Per-asset output row of `computePortfolioReturns`. -/
structure AssetResult where
  name : String
  beginningValue : ℚ
  endingValue : ℚ
  weight : ℚ
  periodReturn : ℚ
  annualizedReturn : AnnResult
  contribution : ℚ
deriving DecidableEq, Inhabited

/-- Portfolio-level output of `computePortfolioReturns`. -/
structure PortfolioResult where
  beginningValue : ℚ
  endingValue : ℚ
  periodReturn : ℚ
  annualizedReturn : AnnResult
deriving DecidableEq, Inhabited

/-- Full output of `computePortfolioReturns`. -/
structure PerformanceResult where
  assetResults : List AssetResult
  portfolio : PortfolioResult
  issues : List String
deriving DecidableEq, Inhabited

/-- The quantity `totalBV = assets.reduce((sum, a) => sum + a.beginningValue, 0)`. -/
def totalBV (assets : List Asset) : ℚ := (assets.map (fun a => a.beginningValue)).sum

/-- The quantity `totalEV = assets.reduce((sum, a) => sum + a.endingValue, 0)`. -/
def totalEV (assets : List Asset) : ℚ := (assets.map (fun a => a.endingValue)).sum

/-- The per-asset cashflow selection:
`cashflows.filter(cf => cf.assetClass === asset.name).map(cf => ({date, amount}))`. -/
def matchingFlows (cashflows : List PortfolioCashflow) (a : Asset) : List Cashflow :=
  (cashflows.filter (fun cf => cf.assetClass == a.name)).map
    (fun cf => { date := cf.date, amount := cf.amount })

/-- The zero-basis special case guard:
`asset.beginningValue === 0 && (assetFlows.length === 0 ||
Math.abs(assetFlows.reduce((s, f) => s + f.amount, 0)) < EPS)`. -/
def zeroBasis (a : Asset) (assetFlows : List Cashflow) : Bool :=
  decide (a.beginningValue = 0) &&
    (assetFlows.isEmpty || jsAbsLt (jsSum (assetFlows.map (fun cf => cf.amount))) EPS)

/-- The per-asset `modifiedDietz` invocation inside
`computePortfolioReturns`. -/
def assetDietz (cashflows : List PortfolioCashflow) (t0 t1 : ℤ) (a : Asset) :
    Except String ℚ :=
  modifiedDietz { beginningValue := .fin a.beginningValue, endingValue := .fin a.endingValue,
                  cashflows := matchingFlows cashflows a,
                  startDate := some t0, endDate := some t1 }

/-- The `try { ... } catch (err) { issues.push(...); periodReturn = 0 }`
body of the per-asset loop: yields the asset's period return together
with the issue string pushed for it (if any). -/
def assetPeriodReturnAndIssue (cashflows : List PortfolioCashflow) (t0 t1 : ℤ)
    (a : Asset) : ℚ × Option String :=
  if zeroBasis a (matchingFlows cashflows a) then (0, none)
  else
    match assetDietz cashflows t0 t1 a with
    | .ok r => (r, none)
    | .error m => (0, some (a.name ++ ": " ++ m))

/-- The `AssetResult` row built for one asset in the per-asset loop. -/
def assetEntry (cashflows : List PortfolioCashflow) (t0 t1 : ℤ) (totB : ℚ)
    (a : Asset) : AssetResult :=
  let pr := (assetPeriodReturnAndIssue cashflows t0 t1 a).1
  { name := a.name, beginningValue := a.beginningValue, endingValue := a.endingValue,
    weight := a.beginningValue / totB, periodReturn := pr,
    annualizedReturn := annualize pr t0 t1,
    contribution := a.beginningValue / totB * pr }

/-- The list `allFlows = cashflows.map(cf => ({date: cf.date, amount: cf.amount}))`. -/
def allFlows (cashflows : List PortfolioCashflow) : List Cashflow :=
  cashflows.map (fun cf => { date := cf.date, amount := cf.amount })

/-- The portfolio-level `modifiedDietz` invocation inside
`computePortfolioReturns` (all cashflows, regardless of asset class). -/
def portfolioDietz (assets : List Asset) (cashflows : List PortfolioCashflow)
    (t0 t1 : ℤ) : Except String ℚ :=
  modifiedDietz { beginningValue := .fin (totalBV assets), endingValue := .fin (totalEV assets),
                  cashflows := allFlows cashflows,
                  startDate := some t0, endDate := some t1 }

/-- Function `computePortfolioReturns` from the source: fail fast on a
non-positive total basis, per-asset loop with recovered failures,
portfolio-level Dietz call whose failure is rethrown, assembled result.
The source pushes each issue while mapping over `assets`; here the same
list is obtained by `filterMap` over the same per-asset computation,
preserving asset order. -/
def computePortfolioReturns (assets : List Asset) (cashflows : List PortfolioCashflow)
    (t0 t1 : ℤ) : Except String PerformanceResult :=
  let totB := totalBV assets
  if totB ≤ 0 then .error "Total beginning market value must be greater than zero."
  else
    match portfolioDietz assets cashflows t0 t1 with
    | .error m => .error ("Portfolio Dietz error: " ++ m)
    | .ok pr =>
      .ok { assetResults := assets.map (assetEntry cashflows t0 t1 totB),
            portfolio := { beginningValue := totB, endingValue := totalEV assets,
                           periodReturn := pr, annualizedReturn := annualize pr t0 t1 },
            issues := assets.filterMap (fun a => (assetPeriodReturnAndIssue cashflows t0 t1 a).2) }

/-- The `AssetInput` record of the Brinson-Fachler engine: weights and returns in
decimal form. -/
structure AttributionInput where
  name : String
  portfolioWeight : ℚ
  portfolioReturn : ℚ
  benchmarkWeight : ℚ
  benchmarkReturn : ℚ
deriving DecidableEq, Inhabited

/-- The `AssetAttribution` record: one attribution row. -/
structure AssetAttribution where
  name : String
  portfolioWeight : ℚ
  portfolioReturn : ℚ
  benchmarkWeight : ℚ
  benchmarkReturn : ℚ
  allocation : ℚ
  selection : ℚ
  interaction : ℚ
  total : ℚ
deriving DecidableEq, Inhabited

/-- The `totals` record of the attribution result. -/
structure AttributionTotals where
  allocation : ℚ
  selection : ℚ
  interaction : ℚ
  activeReturn : ℚ
deriving DecidableEq, Inhabited

/-- Full output of `brinsonFachler`. -/
structure AttributionResult where
  attribution : List AssetAttribution
  totals : AttributionTotals
  portfolioReturn : ℚ
  benchmarkReturn : ℚ
  totalPortfolioWeight : ℚ
  totalBenchmarkWeight : ℚ
  insight : String
deriving DecidableEq, Inhabited

/-- One attribution row: the three Brinson-Fachler effects for one
asset class, computed against the total benchmark return `bR`. -/
def attribRow (bR : ℚ) (a : AttributionInput) : AssetAttribution :=
  let allocation := (a.portfolioWeight - a.benchmarkWeight) * (a.benchmarkReturn - bR)
  let selection := a.benchmarkWeight * (a.portfolioReturn - a.benchmarkReturn)
  let interaction := (a.portfolioWeight - a.benchmarkWeight) * (a.portfolioReturn - a.benchmarkReturn)
  { name := a.name, portfolioWeight := a.portfolioWeight, portfolioReturn := a.portfolioReturn,
    benchmarkWeight := a.benchmarkWeight, benchmarkReturn := a.benchmarkReturn,
    allocation := allocation, selection := selection, interaction := interaction,
    total := allocation + selection + interaction }

/-- An effect extremum candidate tracked by the insight scan
(`{ name, value, type }` in the source). -/
structure Extreme where
  name : String
  value : ℚ
  etype : String
deriving DecidableEq, Inhabited

/-- The three `{value, type}` effects scanned for one attribution row,
in source order. -/
def effectTriples (d : AssetAttribution) : List Extreme :=
  [{ name := d.name, value := d.allocation, etype := "Asset Allocation" },
   { name := d.name, value := d.selection, etype := "Stock Selection" },
   { name := d.name, value := d.interaction, etype := "Interaction" }]

/-- Update step `if (e.value > maxPositive.value) maxPositive = ...`; the source's
`-Infinity` sentinel is modelled by `none` (any finite value beats it). -/
def updMaxPositive (cur : Option Extreme) (e : Extreme) : Option Extreme :=
  match cur with
  | none => some e
  | some m => if m.value < e.value then some e else some m

/-- Update step `if (e.value < maxNegative.value) maxNegative = ...`; the source's
`Infinity` sentinel is modelled by `none`. -/
def updMaxNegative (cur : Option Extreme) (e : Extreme) : Option Extreme :=
  match cur with
  | none => some e
  | some m => if e.value < m.value then some e else some m

/-- The `maxPositive` scan over all rows and all three effect types. -/
def maxPositiveOf (attribution : List AssetAttribution) : Option Extreme :=
  ((attribution.map effectTriples).flatten).foldl updMaxPositive none

/-- The `maxNegative` scan over all rows and all three effect types. -/
def maxNegativeOf (attribution : List AssetAttribution) : Option Extreme :=
  ((attribution.map effectTriples).flatten).foldl updMaxNegative none

/-- JS `x.toFixed(2)` for a non-negative exact rational: the integer
`n` with `n / 100` closest to `x` (ties toward the larger `n`),
rendered with two decimal digits.  Only ever applied to absolute
values, so the negative rendering is not modelled. -/
def toFixed2 (x : ℚ) : String :=
  let n : ℤ := ⌊x * 100 + 1/2⌋
  let m := n.toNat
  toString (m / 100) ++ "." ++
    (if m % 100 < 10 then "0" ++ toString (m % 100) else toString (m % 100))

/-- The helper `absPct = (v) => Math.abs(v * 100).toFixed(2) + "%"`. -/
def absPct (v : ℚ) : String := toFixed2 |v * 100| ++ "%"

/-- The first insight sentence:
`The portfolio ${out ? 'outperformed' : 'underperformed'} the benchmark by ${absPct(activeReturn)}. `. -/
def insightBase (activeReturn : ℚ) : String :=
  "The portfolio " ++ (if 0 < activeReturn then "outperformed" else "underperformed")
    ++ " the benchmark by " ++ absPct activeReturn ++ ". "

/-- The optional top-positive-contributor sentence. -/
def insightPos (mp : Option Extreme) : String :=
  match mp with
  | some m =>
    if 0 < m.value then
      "The largest positive contributor was " ++ m.etype ++ " in " ++ m.name
        ++ " (+" ++ absPct m.value ++ "). "
    else ""
  | none => ""

/-- The optional biggest-detractor sentence. -/
def insightNeg (mn : Option Extreme) : String :=
  match mn with
  | some m =>
    if m.value < 0 then
      "The biggest detractor was " ++ m.etype ++ " in " ++ m.name
        ++ " (-" ++ absPct m.value ++ ")."
    else ""
  | none => ""

/-- The full dynamic insight string built by `brinsonFachler`. -/
def mkInsight (activeReturn : ℚ) (attribution : List AssetAttribution) : String :=
  insightBase activeReturn ++ insightPos (maxPositiveOf attribution)
    ++ insightNeg (maxNegativeOf attribution)

/-- Function `brinsonFachler(assets)` from the source.  The source's
accumulation loops are rendered as sums of mapped lists (same order,
exact rational addition is associative and commutative). -/
def brinsonFachler (assets : List AttributionInput) : AttributionResult :=
  if assets.isEmpty then
    { attribution := [],
      totals := { allocation := 0, selection := 0, interaction := 0, activeReturn := 0 },
      portfolioReturn := 0, benchmarkReturn := 0,
      totalPortfolioWeight := 0, totalBenchmarkWeight := 0,
      insight := "No data to analyze." }
  else
    let portfolioReturn := (assets.map (fun a => a.portfolioWeight * a.portfolioReturn)).sum
    let benchmarkReturn := (assets.map (fun a => a.benchmarkWeight * a.benchmarkReturn)).sum
    let totalPortfolioWeight := (assets.map (fun a => a.portfolioWeight)).sum
    let totalBenchmarkWeight := (assets.map (fun a => a.benchmarkWeight)).sum
    let attribution := assets.map (attribRow benchmarkReturn)
    let totalAllocation := (attribution.map (fun d => d.allocation)).sum
    let totalSelection := (attribution.map (fun d => d.selection)).sum
    let totalInteraction := (attribution.map (fun d => d.interaction)).sum
    let activeReturn := portfolioReturn - benchmarkReturn
    { attribution := attribution,
      totals := { allocation := totalAllocation, selection := totalSelection,
                  interaction := totalInteraction, activeReturn := activeReturn },
      portfolioReturn := portfolioReturn, benchmarkReturn := benchmarkReturn,
      totalPortfolioWeight := totalPortfolioWeight,
      totalBenchmarkWeight := totalBenchmarkWeight,
      insight := mkInsight activeReturn attribution }

/-! ### Theorems -/

/-- Claim C7: `computePortfolioReturns` fails with the zero-total-basis
error whenever the sum of the assets' beginning values is `≤ 0`
(it returns the error unconditionally, so no per-asset result and no
NaN is ever produced in that case). -/
theorem computePortfolioReturns_zero_total_basis
    (assets : List Asset) (cashflows : List PortfolioCashflow) (t0 t1 : ℤ)
    (h : totalBV assets ≤ 0) :
    computePortfolioReturns assets cashflows t0 t1 =
      .error "Total beginning market value must be greater than zero." := by
  simp [computePortfolioReturns, h]

/-- Witness for C7: two assets whose beginning values sum to exactly 0. -/
theorem computePortfolioReturns_zero_total_basis_witness :
    computePortfolioReturns
      [{ name := "A", beginningValue := 100, endingValue := 5 },
       { name := "B", beginningValue := -100, endingValue := 7 }] [] 0 86400000 =
      .error "Total beginning market value must be greater than zero." :=
  computePortfolioReturns_zero_total_basis _ _ _ _ (by norm_num [totalBV])

/-- Claim C6: for a positive-span period, `modifiedDietz` retains
exactly the flows that `computeCashflowWeights` retains, and its
`weightedCF` is the sum of the `weightedAmount` fields produced by
`computeCashflowWeights`. -/
theorem dietz_cashflowWeights_agree (flows : List Cashflow) (t0 t1 : ℤ)
    (h : 0 < t1 - t0) :
    dietzValidFlows t0 t1 flows =
      (computeCashflowWeights flows t0 t1).map
        (fun wf => { date := wf.date, amount := wf.amount : Cashflow })
    ∧ dietzWeightedCF t0 t1 flows =
      ((computeCashflowWeights flows t0 t1).map (fun wf => wf.weightedAmount)).sum := by
  have hT : ¬ (t1 - t0 ≤ 0) := by omega
  constructor
  · simp only [computeCashflowWeights, if_neg hT, List.map_map]
    show dietzValidFlows t0 t1 flows = List.map (fun cf => cf) (flows.filter (cwFlowOk t0 t1))
    rw [show (fun cf : Cashflow => cf) = id from rfl, List.map_id]
    rfl
  · simp only [dietzWeightedCF, computeCashflowWeights, if_neg hT, List.map_map]
    rfl

/-- Witness for C6 at a concrete period and flow list (one in-period
flow, one out-of-period flow, one non-finite flow). -/
theorem dietz_cashflowWeights_agree_witness :
    dietzWeightedCF 0 86400000
        [{ date := some 43200000, amount := .fin 10 },
         { date := some (-5), amount := .fin 3 },
         { date := some 100, amount := .nan }] =
      ((computeCashflowWeights
          [{ date := some 43200000, amount := .fin 10 },
           { date := some (-5), amount := .fin 3 },
           { date := some 100, amount := .nan }] 0 86400000).map
        (fun wf => wf.weightedAmount)).sum :=
  (dietz_cashflowWeights_agree _ 0 86400000 (by norm_num)).2

/-- Claim C8: an asset with zero beginning value whose matching flows
are absent or sum (in absolute value) below `1e-12` takes the
zero-basis special case: its period return is `0` and no issue is
recorded (the Dietz formula is not consulted — the result holds even
where `modifiedDietz` would fail). -/
theorem assetZeroBasis_period_return
    (cashflows : List PortfolioCashflow) (t0 t1 : ℤ) (a : Asset)
    (h0 : a.beginningValue = 0)
    (hf : matchingFlows cashflows a = []
      ∨ jsAbsLt (jsSum ((matchingFlows cashflows a).map (fun cf => cf.amount))) EPS = true) :
    assetPeriodReturnAndIssue cashflows t0 t1 a = (0, none)
    ∧ ∀ totB, (assetEntry cashflows t0 t1 totB a).periodReturn = 0 := by
  have hz : zeroBasis a (matchingFlows cashflows a) = true := by
    rcases hf with hf | hf <;> simp [zeroBasis, h0, hf]
  constructor
  · simp [assetPeriodReturnAndIssue, hz]
  · intro totB
    simp [assetEntry, assetPeriodReturnAndIssue, hz]

/-- Witness for C8: an empty asset with no cashflows at all. -/
theorem assetZeroBasis_period_return_witness :
    assetPeriodReturnAndIssue [] 0 86400000
      { name := "Empty", beginningValue := 0, endingValue := 0 } = (0, none) :=
  (assetZeroBasis_period_return [] 0 86400000 _ rfl (Or.inl rfl)).1

/-- Claim C9: with `BV = 1000`, `EV = 800` and a single `-200` outflow
dated anywhere inside a positive-span period, `modifiedDietz` returns
exactly `0`: the numerator is exactly zero and the denominator is at
least `800`, far from the `1e-12` stability bound. -/
theorem modifiedDietz_outflow_breakeven (t0 t1 t : ℤ)
    (hT : 0 < t1 - t0) (h1 : t0 ≤ t) (h2 : t ≤ t1) :
    modifiedDietz { beginningValue := .fin 1000, endingValue := .fin 800,
                    cashflows := [{ date := some t, amount := .fin (-200) }],
                    startDate := some t0, endDate := some t1 } = .ok 0 := by
  have hT' : ¬ (t1 - t0 ≤ 0) := by omega
  have hflow : dietzFlowOk t0 t1 { date := some t, amount := .fin (-200) } = true := by
    simp [dietzFlowOk, JSNum.isFinite, h1, h2]
  have hw0 : 0 ≤ dietzWeight t0 t1 { date := some t, amount := .fin (-200) } :=
    le_max_left _ _
  have hw1 : dietzWeight t0 t1 { date := some t, amount := .fin (-200) } ≤ 1 :=
    max_le (by norm_num) (min_le_left _ _)
  have hwcf : dietzWeightedCF t0 t1 [{ date := some t, amount := .fin (-200) }]
      = dietzWeight t0 t1 { date := some t, amount := .fin (-200) } * (-200) := by
    simp [dietzWeightedCF, dietzValidFlows, hflow, JSNum.toRat]
  have hscf : dietzSumCF t0 t1 [{ date := some t, amount := .fin (-200) }] = -200 := by
    simp [dietzSumCF, dietzValidFlows, hflow, JSNum.toRat]
  have hden : (800 : ℚ) ≤ 1000 + dietzWeight t0 t1 { date := some t, amount := .fin (-200) } * (-200) := by
    nlinarith
  have habs : ¬ |(1000 : ℚ) + dietzWeight t0 t1 { date := some t, amount := .fin (-200) } * (-200)| < EPS := by
    rw [abs_of_pos (by linarith), EPS]
    intro hc
    linarith
  unfold modifiedDietz
  simp only [JSNum.isFinite, Bool.and_self, Bool.not_true, Bool.false_eq_true, if_false,
    if_neg hT', JSNum.toRat, hwcf, hscf, if_neg habs]
  norm_num

/-- Witness for C9: a 30-day period with the outflow mid-period. -/
theorem modifiedDietz_outflow_breakeven_witness :
    modifiedDietz { beginningValue := .fin 1000, endingValue := .fin 800,
                    cashflows := [{ date := some 1296000000, amount := .fin (-200) }],
                    startDate := some 0, endDate := some 2592000000 } = .ok 0 :=
  modifiedDietz_outflow_breakeven 0 2592000000 1296000000 (by norm_num) (by norm_num) (by norm_num)

/-- The failure condition of `modifiedDietz` as listed by the spec:
non-finite beginning/ending value, a start or end date that is not a
Date object, a non-positive period span, or a denominator within
`1e-12` of zero. -/
def dietzFailCond (p : DietzParams) : Bool :=
  !p.beginningValue.isFinite || !p.endingValue.isFinite ||
    (match p.startDate, p.endDate with
     | some t0, some t1 =>
       decide (t1 - t0 ≤ 0) ||
         decide (|p.beginningValue.toRat + dietzWeightedCF t0 t1 p.cashflows| < EPS)
     | _, _ => true)

/-- The quotient returned by `modifiedDietz` on non-failing input. -/
def dietzValue (p : DietzParams) : ℚ :=
  match p.startDate, p.endDate with
  | some t0, some t1 =>
    (p.endingValue.toRat - p.beginningValue.toRat - dietzSumCF t0 t1 p.cashflows)
      / (p.beginningValue.toRat + dietzWeightedCF t0 t1 p.cashflows)
  | _, _ => 0

/-- Claim C2: `modifiedDietz` fails exactly when one of the four listed
conditions holds, and on every other input returns
`(endingValue - beginningValue - sumCF) / (beginningValue + weightedCF)`. -/
theorem modifiedDietz_error_characterization (p : DietzParams) :
    ((∃ m, modifiedDietz p = .error m) ↔ dietzFailCond p = true)
    ∧ (dietzFailCond p = false → modifiedDietz p = .ok (dietzValue p)) := by
  rcases p with ⟨bv, ev, cfs, sd, ed⟩
  unfold modifiedDietz dietzFailCond dietzValue
  rcases sd with _ | t0
  all_goals rcases ed with _ | t1
  all_goals cases hb : bv.isFinite
  all_goals cases he : ev.isFinite
  all_goals simp [hb, he]
  all_goals split_ifs
  all_goals simp_all

/-- Witness for C2 at a non-failing concrete input. -/
theorem modifiedDietz_error_characterization_witness :
    modifiedDietz { beginningValue := .fin 1000, endingValue := .fin 1100,
                    cashflows := [], startDate := some 0, endDate := some 86400000 } =
      .ok (dietzValue { beginningValue := .fin 1000, endingValue := .fin 1100,
                        cashflows := [], startDate := some 0, endDate := some 86400000 }) :=
  (modifiedDietz_error_characterization _).2
    (by norm_num [dietzFailCond, JSNum.isFinite, JSNum.toRat, dietzWeightedCF,
      dietzValidFlows, EPS])

/-- Claim C5: inside `computePortfolioReturns` (given a positive total
basis) the whole call fails exactly when the portfolio-level
`modifiedDietz` call fails; when the portfolio-level call succeeds the
full result is returned, with one issue entry contributed per failing
asset; and a failing per-asset Dietz call is recovered as period return
`0` together with the single issue string `"<assetName>: <message>"`. -/
theorem computePortfolioReturns_partial_failure
    (assets : List Asset) (cashflows : List PortfolioCashflow) (t0 t1 : ℤ)
    (hbv : 0 < totalBV assets) :
    ((∃ m, computePortfolioReturns assets cashflows t0 t1 = .error m)
       ↔ (∃ m, portfolioDietz assets cashflows t0 t1 = .error m))
    ∧ (∀ pr, portfolioDietz assets cashflows t0 t1 = .ok pr →
        computePortfolioReturns assets cashflows t0 t1 =
          .ok { assetResults := assets.map (assetEntry cashflows t0 t1 (totalBV assets)),
                portfolio := { beginningValue := totalBV assets, endingValue := totalEV assets,
                               periodReturn := pr, annualizedReturn := annualize pr t0 t1 },
                issues := assets.filterMap
                  (fun a => (assetPeriodReturnAndIssue cashflows t0 t1 a).2) })
    ∧ (∀ a m, zeroBasis a (matchingFlows cashflows a) = false →
        assetDietz cashflows t0 t1 a = .error m →
        assetPeriodReturnAndIssue cashflows t0 t1 a = (0, some (a.name ++ ": " ++ m))) := by
  have hbv' : ¬ (totalBV assets ≤ 0) := by linarith
  refine ⟨?_, ?_, ?_⟩
  · unfold computePortfolioReturns
    cases hp : portfolioDietz assets cashflows t0 t1 <;> simp [hbv', hp]
  · intro pr hp
    unfold computePortfolioReturns
    simp [hbv', hp]
  · intro a m hz hf
    simp [assetPeriodReturnAndIssue, hz, hf]

/-- Witness for C5: asset `A` has an unstable Dietz denominator
(`1 - 1 = 0`) while asset `B` is fine; `A`'s failure is recovered as a
single issue string. -/
theorem computePortfolioReturns_partial_failure_witness :
    assetPeriodReturnAndIssue [{ date := some 0, amount := .fin (-1), assetClass := "A" }]
        0 86400000 { name := "A", beginningValue := 1, endingValue := 2 } =
      (0, some ("A" ++ ": " ++
        "Unstable denominator — beginning value plus weighted cashflows is near zero.")) :=
  (computePortfolioReturns_partial_failure
      [{ name := "A", beginningValue := 1, endingValue := 2 },
       { name := "B", beginningValue := 100, endingValue := 110 }]
      [{ date := some 0, amount := .fin (-1), assetClass := "A" }] 0 86400000
      (by norm_num [totalBV])).2.2 _ _
    (by simp [zeroBasis, matchingFlows])
    (by norm_num [assetDietz, modifiedDietz, matchingFlows, JSNum.isFinite, JSNum.toRat,
      dietzWeightedCF, dietzSumCF, dietzValidFlows, dietzFlowOk, dietzWeight, flowTime, EPS])

/-- The row-wise sum identity behind the Brinson-Fachler decomposition:
against an arbitrary reference return `c`, the three effect totals sum
to `ΣWpRp - ΣWbRb - c * (ΣWp - ΣWb)`. -/
theorem attribRow_sum (c : ℚ) (l : List AttributionInput) :
    ((l.map (attribRow c)).map (fun d => d.allocation)).sum
      + ((l.map (attribRow c)).map (fun d => d.selection)).sum
      + ((l.map (attribRow c)).map (fun d => d.interaction)).sum
    = (l.map (fun a => a.portfolioWeight * a.portfolioReturn)).sum
      - (l.map (fun a => a.benchmarkWeight * a.benchmarkReturn)).sum
      - c * ((l.map (fun a => a.portfolioWeight)).sum
             - (l.map (fun a => a.benchmarkWeight)).sum) := by
  induction l with
  | nil => simp
  | cons a l ih =>
    simp only [List.map_cons, List.sum_cons, attribRow]
    linear_combination ih

/-- Claim C1 (corrected): the Brinson-Fachler totals satisfy
`totalAllocation + totalSelection + totalInteraction =
portfolioReturn - benchmarkReturn` whenever the total portfolio weight
equals the total benchmark weight (in particular for weights summing to
one on both sides); the original claim, asserting the identity for
every input, fails on inputs whose two weight sums differ. -/
theorem brinsonFachler_decomposition (assets : List AttributionInput)
    (hW : (brinsonFachler assets).totalPortfolioWeight
        = (brinsonFachler assets).totalBenchmarkWeight) :
    (brinsonFachler assets).totals.allocation + (brinsonFachler assets).totals.selection
      + (brinsonFachler assets).totals.interaction
    = (brinsonFachler assets).portfolioReturn - (brinsonFachler assets).benchmarkReturn := by
  by_cases he : assets.isEmpty
  · simp [brinsonFachler, he]
  · simp only [brinsonFachler, he, Bool.false_eq_true, if_false] at hW ⊢
    rw [attribRow_sum, hW, sub_self, mul_zero, sub_zero]

/-- Counterexample for C1 as stated: a single asset class with
`Wp = 1, Rp = 0, Wb = 1/2, Rb = 1` (weight sums `1` vs `1/2`): the
three effect totals sum to `-3/4` while the active return is `-1/2`. -/
theorem brinsonFachler_decomposition_cx :
    ¬ ((brinsonFachler [{ name := "Equities", portfolioWeight := 1, portfolioReturn := 0,
                          benchmarkWeight := 1/2, benchmarkReturn := 1 }]).totals.allocation
        + (brinsonFachler [{ name := "Equities", portfolioWeight := 1, portfolioReturn := 0,
                             benchmarkWeight := 1/2, benchmarkReturn := 1 }]).totals.selection
        + (brinsonFachler [{ name := "Equities", portfolioWeight := 1, portfolioReturn := 0,
                             benchmarkWeight := 1/2, benchmarkReturn := 1 }]).totals.interaction
      = (brinsonFachler [{ name := "Equities", portfolioWeight := 1, portfolioReturn := 0,
                           benchmarkWeight := 1/2, benchmarkReturn := 1 }]).portfolioReturn
        - (brinsonFachler [{ name := "Equities", portfolioWeight := 1, portfolioReturn := 0,
                             benchmarkWeight := 1/2, benchmarkReturn := 1 }]).benchmarkReturn) := by
  norm_num [brinsonFachler, attribRow]

/-- Witness for C1: two asset classes with both weight sums equal to 1. -/
theorem brinsonFachler_decomposition_witness :
    (brinsonFachler
        [{ name := "A", portfolioWeight := 1/2, portfolioReturn := 1/5,
           benchmarkWeight := 3/5, benchmarkReturn := 1/10 },
         { name := "B", portfolioWeight := 1/2, portfolioReturn := -1/20,
           benchmarkWeight := 2/5, benchmarkReturn := 1/25 }]).totals.allocation
      + (brinsonFachler
        [{ name := "A", portfolioWeight := 1/2, portfolioReturn := 1/5,
           benchmarkWeight := 3/5, benchmarkReturn := 1/10 },
         { name := "B", portfolioWeight := 1/2, portfolioReturn := -1/20,
           benchmarkWeight := 2/5, benchmarkReturn := 1/25 }]).totals.selection
      + (brinsonFachler
        [{ name := "A", portfolioWeight := 1/2, portfolioReturn := 1/5,
           benchmarkWeight := 3/5, benchmarkReturn := 1/10 },
         { name := "B", portfolioWeight := 1/2, portfolioReturn := -1/20,
           benchmarkWeight := 2/5, benchmarkReturn := 1/25 }]).totals.interaction
    = (brinsonFachler
        [{ name := "A", portfolioWeight := 1/2, portfolioReturn := 1/5,
           benchmarkWeight := 3/5, benchmarkReturn := 1/10 },
         { name := "B", portfolioWeight := 1/2, portfolioReturn := -1/20,
           benchmarkWeight := 2/5, benchmarkReturn := 1/25 }]).portfolioReturn
      - (brinsonFachler
        [{ name := "A", portfolioWeight := 1/2, portfolioReturn := 1/5,
           benchmarkWeight := 3/5, benchmarkReturn := 1/10 },
         { name := "B", portfolioWeight := 1/2, portfolioReturn := -1/20,
           benchmarkWeight := 2/5, benchmarkReturn := 1/25 }]).benchmarkReturn :=
  brinsonFachler_decomposition _ (by norm_num [brinsonFachler])

/-- The two-asset scenario of the spec's concrete test:
Equities 500000 → 560000, Cash 50000 → 50500, no cashflows. -/
def scenarioAssets : List Asset :=
  [{ name := "Equities", beginningValue := 500000, endingValue := 560000 },
   { name := "Cash", beginningValue := 50000, endingValue := 50500 }]

/-- Claim C3 (corrected): for any positive span, the scenario yields
Equities period return `0.12`, Cash period return `0.01`, and portfolio
period return `(610500 - 550000) / 550000`, whose exact value is
`0.11` — not `≈ 0.10091` as the claim's decimal rendering states. -/
theorem computePortfolioReturns_scenario (t0 t1 : ℤ) (hT : 0 < t1 - t0) :
    ∃ res, computePortfolioReturns scenarioAssets [] t0 t1 = .ok res
      ∧ res.assetResults.map (fun ar => ar.periodReturn) = [12/100, 1/100]
      ∧ res.portfolio.periodReturn = (610500 - 550000) / 550000 := by
  have hT' : ¬ (t1 - t0 ≤ 0) := by omega
  have hp : portfolioDietz scenarioAssets [] t0 t1 = .ok ((610500 - 550000) / 550000) := by
    norm_num [portfolioDietz, modifiedDietz, scenarioAssets, totalBV, totalEV, allFlows,
      JSNum.isFinite, JSNum.toRat, dietzWeightedCF, dietzSumCF, dietzValidFlows, EPS, hT']
  have hbv : ¬ (totalBV scenarioAssets ≤ 0) := by norm_num [totalBV, scenarioAssets]
  refine ⟨{ assetResults := scenarioAssets.map (assetEntry [] t0 t1 (totalBV scenarioAssets)),
            portfolio := { beginningValue := totalBV scenarioAssets,
                           endingValue := totalEV scenarioAssets,
                           periodReturn := (610500 - 550000) / 550000,
                           annualizedReturn := annualize ((610500 - 550000) / 550000) t0 t1 },
            issues := scenarioAssets.filterMap
              (fun a => (assetPeriodReturnAndIssue [] t0 t1 a).2) }, ?_, ?_, ?_⟩
  · unfold computePortfolioReturns
    simp only [hbv, if_false, hp]
  · simp only [scenarioAssets, List.map_cons, List.map_nil]
    norm_num [assetEntry, assetPeriodReturnAndIssue, zeroBasis, matchingFlows, assetDietz,
      modifiedDietz, JSNum.isFinite, JSNum.toRat, dietzWeightedCF, dietzSumCF,
      dietzValidFlows, EPS, hT']
  · norm_num

/-- Counterexample for C3 as stated: the scenario's portfolio period
return is exactly `11/100 = 0.11`; it differs from the claimed
approximation `0.10091` by `0.00909`, which is not an approximation
error (it exceeds `0.005`). -/
theorem computePortfolioReturns_scenario_cx :
    (computePortfolioReturns scenarioAssets [] 0 2592000000).map
        (fun res => res.portfolio.periodReturn) = .ok (11/100)
    ∧ ¬ |(11 : ℚ)/100 - 10091/100000| < 1/200 := by
  constructor
  · have hp : portfolioDietz scenarioAssets [] 0 2592000000 = .ok (11/100) := by
      norm_num [portfolioDietz, modifiedDietz, scenarioAssets, totalBV, totalEV, allFlows,
        JSNum.isFinite, JSNum.toRat, dietzWeightedCF, dietzSumCF, dietzValidFlows, EPS]
    have hbv : ¬ (totalBV scenarioAssets ≤ 0) := by norm_num [totalBV, scenarioAssets]
    unfold computePortfolioReturns
    simp only [hbv, if_false, hp, Except.map]
  · rw [abs_of_pos (by norm_num)]
    norm_num

/-- Witness for C3 at a concrete one-day span. -/
theorem computePortfolioReturns_scenario_witness :
    ∃ res, computePortfolioReturns scenarioAssets [] 0 86400000 = .ok res
      ∧ res.assetResults.map (fun ar => ar.periodReturn) = [12/100, 1/100]
      ∧ res.portfolio.periodReturn = (610500 - 550000) / 550000 :=
  computePortfolioReturns_scenario 0 86400000 (by norm_num)

/-- An exact whole-number period `86400000 * k` milliseconds from epoch
0 rounds to `k` days. -/
theorem annualizeDays_mul (k : ℤ) : annualizeDays 0 (86400000 * k) = k := by
  unfold annualizeDays jsRound msPerDay
  rw [Int.floor_eq_iff]
  push_cast
  constructor <;> [linarith; linarith [show (0:ℚ) < 1 from one_pos]]

/-- Claim C4 (corrected): for finite `r ≤ -1` and a positive rounded
day count, `annualize` never crashes (it is a total function) and
returns `NaN` exactly when `r < -1` and the exponent `365 / days` is
not an integer.  At `r = -1` the result is pinned to the finite value
`-1` (`Math.pow(0, positive) = +0` exactly), contradicting the claim's
unconditional non-finite/NaN assertion; for `r < -1` with an integer
exponent the result is the implementation-approximated power minus
one, which is finite for moderate magnitudes and `-Infinity` when the
power overflows, so neither finiteness nor non-finiteness holds
uniformly there. -/
theorem annualize_nonpositive_base (r : ℚ) (t0 t1 : ℤ)
    (hr : r ≤ -1) (hd : 0 < annualizeDays t0 t1) :
    (annualize r t0 t1 = .nan ↔ (r < -1 ∧ ¬ (annualizeDays t0 t1 ∣ 365)))
    ∧ (r = -1 → annualize r t0 t1 = .exact (-1))
    ∧ (r < -1 → annualizeDays t0 t1 ∣ 365 →
        annualize r t0 t1 = .approx (1 + r) (365 / ((annualizeDays t0 t1 : ℤ) : ℚ))) := by
  have hd' : ¬ (annualizeDays t0 t1 ≤ 0) := by omega
  have hden : ((365 : ℚ) / ((annualizeDays t0 t1 : ℤ) : ℚ)).den = 1
      ↔ annualizeDays t0 t1 ∣ 365 := by
    have h := Rat.den_div_intCast_eq_one_iff 365 (annualizeDays t0 t1) (by omega)
    simpa using h
  simp only [annualize, if_neg hd']
  rcases lt_or_eq_of_le hr with hlt | heq
  · have hb : 1 + r < 0 := by linarith
    have hne : r ≠ -1 := by intro h; rw [h] at hlt; exact absurd hlt (by norm_num)
    rw [if_pos hb]
    by_cases hdd : ((365 : ℚ) / ((annualizeDays t0 t1 : ℤ) : ℚ)).den = 1
    · rw [if_pos hdd]
      have hdvd := hden.mp hdd
      exact ⟨by simp [hdvd], fun h => absurd h hne, fun _ _ => rfl⟩
    · rw [if_neg hdd]
      have hnd : ¬ (annualizeDays t0 t1 ∣ 365) := fun h => hdd (hden.mpr h)
      exact ⟨by simp [hlt, hnd], fun h => absurd h hne, fun _ hdvd => absurd hdvd hnd⟩
  · have hb : ¬ (1 + r < 0) := by rw [heq]; norm_num
    have hb0 : 1 + r = 0 := by rw [heq]; norm_num
    rw [if_neg hb, if_pos hb0]
    have hnlt : ¬ (r < -1) := by rw [heq]; norm_num
    exact ⟨by simp [hnlt], fun _ => by norm_num, fun h _ => absurd h hnlt⟩

/-- Counterexample for C4 as stated: `r = -1` over an exact 365-day
period is in the claim's domain, yet `annualize` returns the finite
value `-1` (IEEE `Math.pow(0, 1) = 0`), not a non-finite/NaN value. -/
theorem annualize_minus_one_cx :
    ((-1 : ℚ) ≤ -1) ∧ 0 < annualizeDays 0 (86400000 * 365)
    ∧ annualize (-1) 0 (86400000 * 365) = .exact (-1)
    ∧ annualize (-1) 0 (86400000 * 365) ≠ .nan := by
  have hd : annualizeDays 0 (86400000 * 365) = 365 := annualizeDays_mul 365
  have hres : annualize (-1) 0 (86400000 * 365) = .exact (-1) := by
    simp only [annualize, hd]
    norm_num
  exact ⟨le_refl _, by rw [hd]; norm_num, hres, by rw [hres]; simp⟩

/-- Witness for C4: `r = -3/2` over an exact 2-day period (`365/2` is
not an integer), where the theorem's NaN characterization applies. -/
theorem annualize_nonpositive_base_witness :
    annualize (-3/2) 0 (86400000 * 2) = .nan
      ↔ ((-3/2 : ℚ) < -1 ∧ ¬ (annualizeDays 0 (86400000 * 2) ∣ 365)) :=
  (annualize_nonpositive_base (-3/2) 0 (86400000 * 2) (by norm_num)
    (by rw [annualizeDays_mul]; norm_num)).1

/-- String append acts as list append on the underlying characters. -/
theorem strData_append (a b : String) : (a ++ b).data = a.data ++ b.data := rfl

/-- Associativity of string append. -/
theorem strAppend_assoc (a b c : String) : a ++ b ++ c = a ++ (b ++ c) :=
  String.ext (by simp only [strData_append, List.append_assoc])

/-- A string beginning with `"The portfolio underperformed"` never
equals one beginning with `"The portfolio outperformed"` (they differ
within the first 17 characters). -/
theorem under_ne_out (r t : String) :
    "The portfolio underperformed" ++ r ≠ "The portfolio outperformed" ++ t := by
  intro h
  have hd := congrArg String.data h
  simp only [strData_append] at hd
  have h17 := congrArg (List.take 17) hd
  rw [List.take_append_of_le_length (by decide),
    List.take_append_of_le_length (by decide)] at h17
  exact absurd h17 (by decide)

/-- On a strictly positive active return the first insight sentence
starts with the outperformance wording. -/
theorem insightBase_pos (a : ℚ) (h : 0 < a) :
    insightBase a = "The portfolio outperformed" ++ (" the benchmark by " ++ absPct a ++ ". ") := by
  unfold insightBase
  rw [if_pos h]
  apply String.ext
  simp only [strData_append, List.append_assoc]
  rw [← List.append_assoc "The portfolio ".data "outperformed".data]
  congr 1

/-- On a non-positive active return the first insight sentence starts
with the underperformance wording. -/
theorem insightBase_neg (a : ℚ) (h : ¬ 0 < a) :
    insightBase a = "The portfolio underperformed" ++ (" the benchmark by " ++ absPct a ++ ". ") := by
  unfold insightBase
  rw [if_neg h]
  apply String.ext
  simp only [strData_append, List.append_assoc]
  rw [← List.append_assoc "The portfolio ".data "underperformed".data]
  congr 1

/-- Evaluation `absPct(0) = "0.00%"`. -/
theorem absPct_zero : absPct 0 = "0.00%" := by
  unfold absPct toFixed2
  rw [show |(0:ℚ) * 100| = 0 by norm_num,
    show (0:ℚ) * 100 + 1/2 = 1/2 by norm_num,
    show ⌊(1/2 : ℚ)⌋ = 0 by rw [Int.floor_eq_iff]; norm_num]
  rfl

/-- The full first sentence of the insight at active return zero. -/
theorem insightBase_zero :
    insightBase 0 = "The portfolio underperformed the benchmark by 0.00%. " := by
  unfold insightBase
  rw [if_neg (lt_irrefl 0), absPct_zero]
  decide

/-- The insight begins with the outperformance wording exactly for a
strictly positive active return. -/
theorem mkInsight_out_iff (a : ℚ) (l : List AssetAttribution) :
    (∃ t, mkInsight a l = "The portfolio outperformed" ++ t) ↔ 0 < a := by
  constructor
  · rintro ⟨t, ht⟩
    by_contra hna
    rw [mkInsight, insightBase_neg a hna, strAppend_assoc, strAppend_assoc] at ht
    exact under_ne_out _ _ ht
  · intro ha
    refine ⟨" the benchmark by " ++ absPct a ++ ". "
      ++ (insightPos (maxPositiveOf l) ++ insightNeg (maxNegativeOf l)), ?_⟩
    rw [mkInsight, insightBase_pos a ha, strAppend_assoc, strAppend_assoc]

/-- At active return zero the insight reports an underperformance of
exactly `0.00%`. -/
theorem mkInsight_zero (l : List AssetAttribution) :
    ∃ t, mkInsight 0 l = "The portfolio underperformed the benchmark by 0.00%. " ++ t := by
  refine ⟨insightPos (maxPositiveOf l) ++ insightNeg (maxNegativeOf l), ?_⟩
  rw [mkInsight, insightBase_zero, strAppend_assoc]

/-- Claim C10: for every non-empty input, the insight string of
`brinsonFachler` begins with `"The portfolio outperformed"` exactly
when the active return is strictly positive, and at an active return
of exactly zero it reports `"underperformed the benchmark by 0.00%"`. -/
theorem brinsonFachler_insight_claim (assets : List AttributionInput) (h : assets ≠ []) :
    ((∃ t, (brinsonFachler assets).insight = "The portfolio outperformed" ++ t)
       ↔ 0 < (brinsonFachler assets).totals.activeReturn)
    ∧ ((brinsonFachler assets).totals.activeReturn = 0 →
        ∃ t, (brinsonFachler assets).insight
          = "The portfolio underperformed the benchmark by 0.00%. " ++ t) := by
  have hne : assets.isEmpty = false := by
    cases assets with
    | nil => exact absurd rfl h
    | cons a l => rfl
  have h1 : (brinsonFachler assets).insight
      = mkInsight ((brinsonFachler assets).totals.activeReturn)
          ((brinsonFachler assets).attribution) := by
    simp [brinsonFachler, hne]
  rw [h1]
  constructor
  · exact mkInsight_out_iff _ _
  · intro ha
    rw [ha]
    exact mkInsight_zero _

/-- Witness for C10: a single asset class with identical portfolio and
benchmark data, so the active return is exactly zero. -/
theorem brinsonFachler_insight_claim_witness :
    ∃ t, (brinsonFachler
        [{ name := "Equities", portfolioWeight := 1, portfolioReturn := 5/100,
           benchmarkWeight := 1, benchmarkReturn := 5/100 }]).insight
      = "The portfolio underperformed the benchmark by 0.00%. " ++ t :=
  (brinsonFachler_insight_claim _ (by simp)).2 (by norm_num [brinsonFachler])

end AttributionPro
